import Mathlib

/-!
Shallow embedding of the weight-determination pipeline of the
elasticsearch-dynamic-search repository, and proofs about it.

Components embedded (JavaScript source file → Lean definitions):
 - lib/query-analyzer.js, class QueryAnalyzer → performAnalysis, calculateWeights, analyzeQuery
 - lib/query-analyzer.js, class ContextualWeighter → getCorpusStatistics,
   calculateQueryCorpusOverlap, inferUserIntent, calculateContextualWeights
 - lib/query-enhancer.js, class QueryEnhancer → detectProperNouns, getQueryStats,
   shouldAutoDisableRerank, inferDomain, inferIntent, enhanceQuery
 - the WeightCombiner class → combineWeights and its private helpers
 - lib/dynamic-search-engine.js, phases 1-4 of search() → weightPipeline

JavaScript numbers are modelled as exact rationals (ℚ); every constant in the
source is an exact decimal, so no rounding behaviour is lost.  A JavaScript
division that can produce NaN (division by a possibly-zero word count) is
modelled as an Option ℚ returning none exactly when the denominator is zero.
Functions that throw are modelled with Except; functions that cannot throw are
total.  Outputs of the external npm libraries (compromise NLP, wordlist-english,
countries-list) and of the Elasticsearch network calls are passed in as
explicit oracle/fetch parameters; every piece of logic written in this
repository is translated directly.
-/

/-! ## JavaScript string primitives (ASCII model) -/

/-- The characters matched by the regex class \s, restricted to ASCII:
space, tab, newline, carriage return, form feed, vertical tab. -/
def jsIsSpace (c : Char) : Bool :=
  c.toNat = 32 || c.toNat = 9 || c.toNat = 10 || c.toNat = 13 || c.toNat = 12 || c.toNat = 11

/-- Regex class [A-Z]. -/
def isUpperAZ (c : Char) : Bool := 65 ≤ c.toNat && c.toNat ≤ 90

/-- Regex class [a-z]. -/
def isLowerAZ (c : Char) : Bool := 97 ≤ c.toNat && c.toNat ≤ 122

/-- Regex class [0-9]. -/
def isDigit09 (c : Char) : Bool := 48 ≤ c.toNat && c.toNat ≤ 57

/-- Regex class [A-Za-z]. -/
def isLetterAZ (c : Char) : Bool := isUpperAZ c || isLowerAZ c

/-- Regex class [A-Za-z0-9]. -/
def isAlnumAZ (c : Char) : Bool := isLetterAZ c || isDigit09 c

/-- Regex class \w, i.e. [A-Za-z0-9_]. -/
def isWordCharJs (c : Char) : Bool := isAlnumAZ c || c.toNat = 95

/-- String.prototype.toLowerCase on one ASCII character. -/
def jsLowerChar (c : Char) : Char :=
  if isUpperAZ c then Char.ofNat (c.toNat + 32) else c

/-- String.prototype.toUpperCase on one ASCII character. -/
def jsUpperChar (c : Char) : Char :=
  if isLowerAZ c then Char.ofNat (c.toNat - 32) else c

/-- String.prototype.toLowerCase (ASCII model). -/
def jsLower (s : String) : String := ⟨s.data.map jsLowerChar⟩

/-- String.prototype.toUpperCase (ASCII model). -/
def jsUpper (s : String) : String := ⟨s.data.map jsUpperChar⟩

/-- Accumulator-passing splitter: collects the maximal runs of
non-whitespace characters of the input, in order. -/
def wsTokensAux : List Char → List Char → List (List Char)
  | [], cur => if cur = [] then [] else [cur.reverse]
  | c :: cs, cur =>
    if jsIsSpace c then
      if cur = [] then wsTokensAux cs [] else cur.reverse :: wsTokensAux cs []
    else wsTokensAux cs (c :: cur)

/-- The maximal runs of non-whitespace characters of a string, in order.
This is the value of str.split(/\s+/) with empty fragments removed, which is
how every `split(/\s+/).filter(w => w.length > 0)` in the source behaves. -/
def wsTokens (l : List Char) : List (List Char) := wsTokensAux l []

/-- query.split(/\s+/).filter(w => w.length > 0): the whitespace-separated
words of a query. -/
def jsWords (s : String) : List String := (wsTokens s.data).map (fun t => ⟨t⟩)

/-- query.trim().split(/\s+/) as used in QueryEnhancer.detectProperNouns.
A trimmed non-blank string splits into exactly its non-empty whitespace-free
runs; a string that trims to "" splits into [""]. -/
def jsTrimSplitWs (s : String) : List String :=
  match wsTokens s.data with
  | [] => [""]
  | ts => ts.map (fun t => (⟨t⟩ : String))

/-- String.prototype.includes: contiguous substring test. -/
def jsIncludes (s sub : String) : Bool :=
  (s.data.tails).any (fun t => sub.data.isPrefixOf t)

/-- The regex characters ["'] used by the quoted-phrase pattern. -/
def isQuoteChar (c : Char) : Bool := c.toNat = 34 || c.toNat = 39

/-- State machine counting the non-overlapping matches of the global regex
/["']([^"']+)["']/ over a character list, as (query.match(...) || []).length
computes it.  State 0: outside a candidate; state 1: just after an opening
quote with no content yet; state 2: after an opening quote with at least one
non-quote character consumed. -/
def countQuotedAux : List Char → ℕ → ℕ
  | [], _ => 0
  | c :: cs, st =>
    if isQuoteChar c then
      if st = 2 then 1 + countQuotedAux cs 0
      else countQuotedAux cs 1
    else
      if st = 0 then countQuotedAux cs 0 else countQuotedAux cs 2

/-- Number of matches of /["']([^"']+)["']/g in a string. -/
def countQuoted (l : List Char) : ℕ := countQuotedAux l 0

/-- JavaScript division whose denominator is a count that may be zero.  In the
source the numerator is then also zero, making the result NaN; none models
that non-numeric outcome. -/
def jsDivNat (a : ℚ) (b : ℕ) : Option ℚ := if b = 0 then none else some (a / (b : ℚ))

/-- Math.round. -/
def jsRound (x : ℚ) : ℤ := ⌊x + 1/2⌋

/-! ## QueryAnalyzer (lib/query-analyzer.js, lines 4-162) -/

/-- The conceptualWords set of the QueryAnalyzer constructor. -/
def conceptualWordsList : List String :=
  ["similar", "like", "related", "about", "regarding",
   "concept", "idea", "meaning", "definition", "explain",
   "understand", "learn", "discover", "find", "search"]

/-- The exactMatchIndicators set of the QueryAnalyzer constructor. -/
def exactMatchIndicatorsList : List String :=
  ["exactly", "precise", "specific", "particular", "certain"]

/-- QueryAnalyzer constructor options. -/
structure AnalyzerOptions where
  maxQueryLength : ℕ
  entityThreshold : ℚ
  conceptualThreshold : ℚ
  deriving Repr, DecidableEq

/-- Default QueryAnalyzer options: maxQueryLength 20, entityThreshold 0.3,
conceptualThreshold 0.2. -/
def defaultAnalyzerOptions : AnalyzerOptions := ⟨20, 3/10, 1/5⟩

/-- What the external compromise NLP library reports for one query:
doc.topics(), doc.verbs(), doc.nouns() as arrays. -/
structure NlpView where
  topics : List String
  verbs : List String
  nouns : List String
  deriving Repr, DecidableEq

/-- External inputs of QueryAnalyzer: the compromise NLP library plus the
total number of matches of the five fixed entityPatterns regexes
(capitalized runs, 4-digit years, acronyms, emails, URLs) in the query. -/
structure AnalyzerOracle where
  nlp : String → NlpView
  entityPatternMatches : String → ℕ

/-- The analysis record produced by QueryAnalyzer._performAnalysis.  The two
fields computed by an unguarded division by wordCount are Option ℚ: none is
the NaN the source produces when wordCount is zero.  The three ratio fields
divide by Math.max(wordCount, 1) and are always numeric. -/
structure QueryAnalysis where
  wordCount : ℕ
  entityCount : ℕ
  conceptualCount : ℕ
  exactMatchCount : ℕ
  quotedPhrases : ℕ
  avgWordLength : Option ℚ
  uniqueWordFrac : Option ℚ
  entityFrac : ℚ
  conceptualFrac : ℚ
  exactMatchFrac : ℚ
  hasVerbs : Bool
  hasNouns : Bool
  complexity : ℚ
  deriving Repr, DecidableEq

/-- QueryAnalyzer._calculateComplexity. -/
def calculateComplexity (words : List String) (v : NlpView) : ℚ :=
  (if 10 < words.length then 3/10 else 0) +
  (if 2 < v.topics.length then 1/5 else 0) +
  (if 1 < v.verbs.length then 1/5 else 0) +
  (if 3 < v.nouns.length then 3/10 else 0)

/-- QueryAnalyzer._performAnalysis (query-analyzer.js lines 50-92).  The
fields entityFrac, conceptualFrac, exactMatchFrac, uniqueWordFrac embed the
source fields entityRatio, conceptualRatio, exactMatchRatio, uniqueWordRatio
(renamed only because of naming constraints of this development). -/
def performAnalysis (o : AnalyzerOracle) (query : String) : QueryAnalysis :=
  let words := jsWords (jsLower query)
  let wordCount := words.length
  let v := o.nlp query
  let entityCount := v.topics.length + o.entityPatternMatches query
  let conceptualCount := (words.filter (fun w => conceptualWordsList.contains w)).length
  let exactMatchCount := (words.filter (fun w => exactMatchIndicatorsList.contains w)).length
  let totalLen : ℚ := ((words.map String.length).sum : ℕ)
  { wordCount := wordCount
    entityCount := entityCount
    conceptualCount := conceptualCount
    exactMatchCount := exactMatchCount
    quotedPhrases := countQuoted query.data
    avgWordLength := jsDivNat totalLen wordCount
    uniqueWordFrac := jsDivNat ((words.dedup.length : ℕ) : ℚ) wordCount
    entityFrac := (entityCount : ℚ) / ((max wordCount 1 : ℕ) : ℚ)
    conceptualFrac := (conceptualCount : ℚ) / ((max wordCount 1 : ℕ) : ℚ)
    exactMatchFrac := (exactMatchCount : ℚ) / ((max wordCount 1 : ℕ) : ℚ)
    hasVerbs := !v.verbs.isEmpty
    hasNouns := !v.nouns.isEmpty
    complexity := calculateComplexity words v }

/-- The caller context consumed by the analyzers: optional userIntent and
domain labels. -/
structure AnalyzerContext where
  userIntent : Option String
  domain : Option String
  deriving Repr, DecidableEq

/-- The weights record produced by QueryAnalyzer._calculateWeights. -/
structure CalculatedWeights where
  lexical : ℚ
  semantic : ℚ
  confidence : ℚ
  strategy : String
  reasoning : List String
  deriving Repr, DecidableEq

/-- QueryAnalyzer._calculateWeights (query-analyzer.js lines 104-159):
first-match strategy selection, then additive intent and domain adjustments,
then semantic = 1 - lexical. -/
def calculateWeights (opts : AnalyzerOptions) (a : QueryAnalysis)
    (context : AnalyzerContext) : CalculatedWeights :=
  let base : ℚ × String × ℚ × List String :=
    if 0 < a.quotedPhrases ∨ (1/10 : ℚ) < a.exactMatchFrac then
      (4/5, "exact_match", 9/10, ["Exact match indicators - extra 30% lexical boost"])
    else if opts.entityThreshold < a.entityFrac then
      (3/4, "entity_focused", 4/5, ["High entity content - extra 25% lexical boost"])
    else if opts.conceptualThreshold < a.conceptualFrac then
      (3/10, "conceptual", 4/5, ["Conceptual query - extra 20% semantic boost"])
    else if a.wordCount ≤ 2 then
      (13/20, "short_query", 7/10, ["Short queries - extra 15% lexical boost"])
    else if 8 ≤ a.wordCount then
      (2/5 + a.entityFrac * (3/10), "descriptive", 3/4,
        ["Long descriptive queries - balanced approach with entity adjustment"])
    else (1/2, "balanced", 3/5, [])
  let lw0 := base.1
  let strategy := base.2.1
  let confidence := base.2.2.1
  let reasoning0 := base.2.2.2
  let lw1 :=
    if context.userIntent = some "factual" then lw0 + 1/10
    else if context.userIntent = some "exploratory" then lw0 - 3/20
    else lw0
  let reasoning1 := reasoning0 ++
    (if context.userIntent = some "factual" then ["Factual intent - extra 10% lexical boost"]
     else if context.userIntent = some "exploratory" then
       ["Exploratory intent - extra 15% semantic boost"]
     else [])
  let lw2 := if context.domain = some "technical" then lw1 + 1/20 else lw1
  let reasoning2 := reasoning1 ++
    (if context.domain = some "technical" then ["Technical domain - extra 5% lexical boost"]
     else [])
  { lexical := lw2, semantic := 1 - lw2, confidence := confidence,
    strategy := strategy, reasoning := reasoning2 }

/-- The record returned by QueryAnalyzer.analyzeQuery. -/
structure AnalyzerDecision where
  lexicalWeight : ℚ
  semanticWeight : ℚ
  confidence : ℚ
  analysis : QueryAnalysis
  strategy : String
  reasoning : List String
  deriving Repr, DecidableEq

/-- QueryAnalyzer.analyzeQuery (query-analyzer.js lines 32-48): throws for a
falsy query (the empty string is the only falsy string; non-string inputs are
outside the embedded type), otherwise clamps both calculated weights to
[0.1, 0.9] independently. -/
def analyzeQuery (opts : AnalyzerOptions) (o : AnalyzerOracle) (query : String)
    (context : AnalyzerContext) : Except String AnalyzerDecision :=
  if query = "" then Except.error "Query must be a non-empty string"
  else
    let analysis := performAnalysis o query
    let w := calculateWeights opts analysis context
    Except.ok
      { lexicalWeight := max (1/10) (min (9/10) w.lexical)
        semanticWeight := max (1/10) (min (9/10) w.semantic)
        confidence := w.confidence
        analysis := analysis
        strategy := w.strategy
        reasoning := w.reasoning }

/-! ## ContextualWeighter (lib/query-analyzer.js, lines 162-375) -/

/-- Corpus statistics as ContextualWeighter consumes them (the source also
stores a fetch timestamp alongside, used only for caching). -/
structure CorpusStats where
  avgDocLength : ℚ
  termDiversity : ℚ
  totalDocs : ℚ
  deriving Repr, DecidableEq

/-- The aggregation values of a successful Elasticsearch statistics fetch:
avg_doc_length.value (null on an empty index, hence Option),
term_diversity.value and total_docs.value. -/
structure RawCorpusAggs where
  avgDocLengthValue : Option ℚ
  termDiversityValue : ℚ
  totalDocsValue : ℚ
  deriving Repr, DecidableEq

/-- The default statistics substituted when the fetch fails
(query-analyzer.js lines 288-292). -/
def defaultCorpusStats : CorpusStats := ⟨500, 1/2, 1000⟩

/-- ContextualWeighter.getCorpusStatistics (lines 240-294).  The external
network call is the fetch parameter: Except.error is a failed call.  A cached
entry is a pair of statistics and the timestamp at which it was stored; it is
served while now - timestamp < cacheTTL.  The cache write performed on a
successful fetch does not affect the returned value and is not modelled. -/
def getCorpusStatistics (cached : Option (CorpusStats × ℚ)) (now cacheTTL : ℚ)
    (fetch : Except String RawCorpusAggs) : CorpusStats :=
  match cached with
  | some (data, ts) =>
    if now - ts < cacheTTL then data
    else
      match fetch with
      | Except.ok aggs =>
        { avgDocLength := match aggs.avgDocLengthValue with
            | some v => if v = 0 then 500 else v
            | none => 500
          termDiversity := aggs.termDiversityValue / max aggs.totalDocsValue 1
          totalDocs := aggs.totalDocsValue }
      | Except.error _ => defaultCorpusStats
  | none =>
    match fetch with
    | Except.ok aggs =>
      { avgDocLength := match aggs.avgDocLengthValue with
          | some v => if v = 0 then 500 else v
          | none => 500
        termDiversity := aggs.termDiversityValue / max aggs.totalDocsValue 1
        totalDocs := aggs.totalDocsValue }
    | Except.error _ => defaultCorpusStats

/-- ContextualWeighter.calculateQueryCorpusOverlap (lines 296-337).  The
external terms aggregation is the fetch parameter, carrying the bucket keys of
a successful call; Except.error is a failed call, answered with 0.5. -/
def calculateQueryCorpusOverlap (query : String)
    (fetch : Except String (List String)) : ℚ :=
  let queryTerms := (wsTokens (jsLower query).data).filter (fun t => 2 < t.length)
  if queryTerms = [] then 1/2
  else
    match fetch with
    | Except.ok bucketKeys =>
      let corpusTerms :=
        (bucketKeys.flatMap (fun k => wsTokens (jsLower k).data)).filter
          (fun t => 2 < t.length)
      ((queryTerms.filter (fun t => corpusTerms.contains t)).length : ℚ) /
        (queryTerms.length : ℚ)
    | Except.error _ => 1/2

/-- The indicator lists of ContextualWeighter.inferUserIntent. -/
def factualIndicators : List String := ["what", "when", "where", "who", "how many", "define"]

def exploratoryIndicators : List String := ["similar", "like", "related", "about", "explore", "discover"]

def navigationalIndicators : List String := ["login", "homepage", "contact", "support", "download"]

/-- The result of ContextualWeighter.inferUserIntent; the scores object is
flattened into its three fixed keys, in insertion order factual, exploratory,
navigational. -/
structure UserIntentResult where
  primary : String
  confidence : ℚ
  factualScore : ℚ
  exploratoryScore : ℚ
  navigationalScore : ℚ
  deriving Repr, DecidableEq

/-- The insertion order of the keys of the scores object, as Object.keys
returns them. -/
def intentKeys : List String := ["factual", "exploratory", "navigational"]

/-- The three indicator-substring scores of inferUserIntent: each matching
factual or exploratory indicator adds 0.3, each matching navigational
indicator adds 0.4. -/
def intentScores (query : String) : ℚ × ℚ × ℚ :=
  let q := jsLower query
  (((factualIndicators.filter (fun i => jsIncludes q i)).length : ℚ) * (3/10),
   ((exploratoryIndicators.filter (fun i => jsIncludes q i)).length : ℚ) * (3/10),
   ((navigationalIndicators.filter (fun i => jsIncludes q i)).length : ℚ) * (2/5))

/-- ContextualWeighter.inferUserIntent (lines 339-372).  primary is
Object.keys(scores).find(intent => scores[intent] === maxScore) with the
fallback || 'exploratory'; the unused context parameter of the source is kept.
-/
def inferUserIntent (query : String) (_context : AnalyzerContext) : UserIntentResult :=
  let s := intentScores query
  let maxScore := max s.1 (max s.2.1 s.2.2)
  let scoreOf : String → ℚ := fun k =>
    if k = "factual" then s.1
    else if k = "exploratory" then s.2.1
    else if k = "navigational" then s.2.2
    else 0
  let primary := (intentKeys.find? (fun k => scoreOf k = maxScore)).getD "exploratory"
  { primary := primary
    confidence := min maxScore (9/10)
    factualScore := s.1
    exploratoryScore := s.2.1
    navigationalScore := s.2.2 }

/-- The record returned by ContextualWeighter.calculateContextualWeights. -/
structure ContextualSignal where
  lexicalWeight : ℚ
  semanticWeight : ℚ
  confidence : ℚ
  reasoning : List String
  corpusStats : CorpusStats
  queryCorpusOverlap : ℚ
  userIntent : String
  intentConfidence : ℚ
  deriving Repr, DecidableEq

/-- ContextualWeighter.calculateContextualWeights (lines 173-238): base
lexical weight 0.5 adjusted in order by corpus statistics, vocabulary overlap,
inferred intent and caller domain, clamped to [0.1, 0.9];
semantic = 1 - lexical; confidence 0.6, +0.1 on high overlap, clamped to
[0.3, 0.95].  The two external calls appear as fetch parameters. -/
def calculateContextualWeights (query : String)
    (cached : Option (CorpusStats × ℚ)) (now cacheTTL : ℚ)
    (statsFetch : Except String RawCorpusAggs)
    (overlapFetch : Except String (List String))
    (context : AnalyzerContext) : ContextualSignal :=
  let corpusStats := getCorpusStatistics cached now cacheTTL statsFetch
  let overlap := calculateQueryCorpusOverlap query overlapFetch
  let intent := inferUserIntent query context
  let l1 := if 1000 < corpusStats.avgDocLength then (1/2 : ℚ) - 1/10 else 1/2
  let r1 := if 1000 < corpusStats.avgDocLength then
    ["Long documents favor semantic search"] else []
  let l2 := if 4/5 < corpusStats.termDiversity then l1 - 3/20 else l1
  let r2 := r1 ++ (if 4/5 < corpusStats.termDiversity then
    ["High term diversity favors semantic search"] else [])
  let l3 := if 7/10 < overlap then l2 + 1/5
    else if overlap < 3/10 then l2 - 1/5 else l2
  let c3 := if 7/10 < overlap then (3/5 : ℚ) + 1/10 else 3/5
  let r3 := r2 ++
    (if 7/10 < overlap then ["High vocabulary overlap favors lexical search"]
     else if overlap < 3/10 then ["Low vocabulary overlap favors semantic search"]
     else [])
  let l4 := if intent.primary = "factual" then l3 + 3/20
    else if intent.primary = "exploratory" then l3 - 1/5
    else if intent.primary = "navigational" then l3 + 1/4
    else l3
  let r4 := r3 ++
    (if intent.primary = "factual" then ["Factual queries benefit from lexical precision"]
     else if intent.primary = "exploratory" then
       ["Exploratory queries benefit from semantic breadth"]
     else if intent.primary = "navigational" then
       ["Navigational queries require lexical precision"]
     else [])
  let l5 := if context.domain = some "technical" then l4 + 1/10
    else if context.domain = some "creative" then l4 - 3/20
    else l4
  let r5 := r4 ++
    (if context.domain = some "technical" then
       ["Technical domain benefits from exact term matching"]
     else if context.domain = some "creative" then
       ["Creative domain benefits from conceptual search"]
     else [])
  let lexicalWeight := max (1/10) (min (9/10) l5)
  { lexicalWeight := lexicalWeight
    semanticWeight := 1 - lexicalWeight
    confidence := max (3/10) (min (19/20) c3)
    reasoning := r5
    corpusStats := corpusStats
    queryCorpusOverlap := overlap
    userIntent := intent.primary
    intentConfidence := intent.confidence }

/-! ## QueryEnhancer (lib/query-enhancer.js) -/

/-- One compromise check result for the single-word query: whether the check
found anything (doc.people().found etc.) and the matched text
(check.method.text()). -/
structure NlpCheck where
  found : Bool
  text : String
  deriving Repr, DecidableEq

/-- The five compromise checks run by QueryEnhancer.detectProperNouns:
people, places, organizations, the #ProperNoun match, acronyms. -/
structure NlpProperNounView where
  people : NlpCheck
  places : NlpCheck
  organizations : NlpCheck
  properNoun : NlpCheck
  acronyms : NlpCheck
  deriving Repr, DecidableEq

/-- External inputs of QueryEnhancer: the compromise NLP library, the
wordlist-english dictionary (queried with a lowercased word), and the
countries-list-driven regional matcher of detectRegion, whose dictionary and
word-boundary regexes come from outside the weight logic and whose result is
only ever consumed as an opaque Option region code. -/
structure EnhancerOracle where
  nlp : String → NlpProperNounView
  isEnglishWord : String → Bool
  detectRegion : String → Option String

/-- The properNounChecks array of detectProperNouns (query-enhancer.js lines
143-149), pairing each compromise check with its type label and fixed
confidence. -/
def properNounChecks (v : NlpProperNounView) : List (NlpCheck × String × ℚ) :=
  [(v.people, "Person", 19/20),
   (v.places, "Place", 9/10),
   (v.organizations, "Organization", 9/10),
   (v.properNoun, "ProperNoun", 4/5),
   (v.acronyms, "Acronym", 17/20)]

/-- QueryEnhancer._hasCapitalization: /^[A-Z]/. -/
def hasCapitalization (w : String) : Bool :=
  match w.data with
  | [] => false
  | c :: _ => isUpperAZ c

/-- QueryEnhancer._hasProperCapitalization: /^[A-Z][a-z]+$/ plus length > 1
(the length test is implied by the regex). -/
def hasProperCapitalization (w : String) : Bool :=
  (match w.data with
   | [] => false
   | c :: rest => isUpperAZ c && !rest.isEmpty && rest.all isLowerAZ) && 1 < w.length

/-- QueryEnhancer._isAcronym: /^[A-Z]{2,}$/ or /^[A-Z]+(&[A-Z]+)*$/
(uppercase groups joined by ampersands, each non-empty). -/
def isAcronym (w : String) : Bool :=
  (2 ≤ w.data.length && w.data.all isUpperAZ) ||
  (let groups := w.data.splitOn (Char.ofNat 38)
   groups.all (fun g => !g.isEmpty && g.all isUpperAZ))

/-- QueryEnhancer._isProductCode: /^[A-Za-z0-9]+[-_]?[A-Za-z0-9]+$/ together
with at least one letter and at least one digit.  The regex accepts exactly
the strings of length ≥ 2 whose characters are alphanumeric except for at most
one dash/underscore separator that is neither first nor last. -/
def isProductCode (w : String) : Bool :=
  let cs := w.data
  let isSep : Char → Bool := fun c => c.toNat = 45 || c.toNat = 95
  (if cs.countP isSep = 0 then 2 ≤ cs.length && cs.all isAlnumAZ
   else if cs.countP isSep = 1 then
     match cs.head?, cs.getLast? with
     | some a, some b =>
       isAlnumAZ a && isAlnumAZ b && cs.all (fun c => isAlnumAZ c || isSep c)
     | _, _ => false
   else false) && cs.any isLetterAZ && cs.any isDigit09

/-- QueryEnhancer._isAllCaps: word === word.toUpperCase() with at least one
uppercase letter. -/
def isAllCaps (w : String) : Bool := w = jsUpper w && w.data.any isUpperAZ

/-- word.toLowerCase().replace(/[^\w]/g, '') of detectProperNouns line 167. -/
def cleanWordOf (w : String) : String := ⟨(jsLower w).data.filter isWordCharJs⟩

/-- QueryEnhancer._isEnglishWord: dictionary membership of the lowercased
word. -/
def isEnglishWordFn (o : EnhancerOracle) (w : String) : Bool :=
  o.isEnglishWord (jsLower w)

/-- One entry of the analysis array of detectProperNouns. -/
structure ProperNounEntry where
  word : String
  confidence : ℚ
  reasons : List String
  nlpType : Option String
  deriving Repr, DecidableEq

/-- The record returned by QueryEnhancer.detectProperNouns. -/
structure ProperNounResult where
  hasProperNouns : Bool
  properNouns : List String
  confidence : ℚ
  analysis : List ProperNounEntry
  deriving Repr, DecidableEq

/-- The empty proper-noun result. -/
def emptyProperNouns : ProperNounResult := ⟨false, [], 0, []⟩

/-- QueryEnhancer.detectProperNouns (query-enhancer.js lines 124-235).
Restricted to single-word queries; accumulates confidence from the first
matching compromise check and five manual strategies in source order; accepts
the word when the clamped confidence reaches 0.2 or compromise matched. -/
def detectProperNouns (o : EnhancerOracle) (query : String) : ProperNounResult :=
  if query = "" then emptyProperNouns
  else
    let words := jsTrimSplitWs query
    if words.length ≠ 1 then emptyProperNouns
    else
      let v := o.nlp query
      let qLower := jsLower query
      let firstHit :=
        (properNounChecks v).find? (fun c => c.1.found && jsLower c.1.text = qLower)
      let word := words.headD ""
      let cleanWord := cleanWordOf word
      let conf0 : ℚ := match firstHit with
        | some h => h.2.2
        | none => 0
      let reasons0 : List String := match firstHit with
        | some h => ["nlp_" ++ jsLower h.2.1]
        | none => []
      let conf1 := if hasCapitalization word && !isEnglishWordFn o cleanWord then
        conf0 + 7/10 else conf0
      let reasons1 := reasons0 ++
        (if hasCapitalization word && !isEnglishWordFn o cleanWord then
          ["capitalized_non_dictionary"] else [])
      let conf2 := if hasProperCapitalization word then
        (if isEnglishWordFn o cleanWord then conf1 + 1/10 else conf1 + 1/2)
        else conf1
      let reasons2 := reasons1 ++
        (if hasProperCapitalization word then
          (if isEnglishWordFn o cleanWord then ["capitalized_dictionary_word"]
           else ["capitalized_non_dictionary_word"])
         else [])
      let conf3 := if isAcronym word then conf2 + 3/5 else conf2
      let reasons3 := reasons2 ++ (if isAcronym word then ["acronym"] else [])
      let conf4 := if isProductCode word then conf3 + 2/5 else conf3
      let reasons4 := reasons3 ++ (if isProductCode word then ["product_code"] else [])
      let conf5 := if isAllCaps word && 2 ≤ word.length then conf4 + 1/2 else conf4
      let reasons5 := reasons4 ++
        (if isAllCaps word && 2 ≤ word.length then ["all_caps"] else [])
      let finalConfidence := min conf5 1
      let detectedNouns : List ProperNounEntry :=
        if (1/5 : ℚ) ≤ finalConfidence || firstHit.isSome then
          [⟨word, finalConfidence, reasons5, firstHit.map (fun h => h.2.1)⟩]
        else []
      let totalConfidence : ℚ :=
        if (1/5 : ℚ) ≤ finalConfidence || firstHit.isSome then finalConfidence else 0
      let avgConfidence : ℚ :=
        if 0 < detectedNouns.length then totalConfidence / (detectedNouns.length : ℚ)
        else 0
      { hasProperNouns := 0 < detectedNouns.length
        properNouns := detectedNouns.map (fun n => n.word)
        confidence := min avgConfidence 1
        analysis := detectedNouns }

/-- The query statistics record of QueryEnhancer._getQueryStats. -/
structure QueryStats where
  wordCount : ℕ
  characterCount : ℕ
  avgWordLength : ℚ
  deriving Repr, DecidableEq

/-- QueryEnhancer._getQueryStats (query-enhancer.js lines 241-248). -/
def getQueryStats (query : String) : QueryStats :=
  let words := jsWords query
  { wordCount := words.length
    characterCount := query.length
    avgWordLength := if 0 < words.length then
      (((words.map String.length).sum : ℕ) : ℚ) / (words.length : ℚ) else 0 }

/-- QueryEnhancer.shouldAutoDisableRerank (query-enhancer.js lines 70-79):
true exactly for single-word queries with a detected proper noun. -/
def shouldAutoDisableRerank (o : EnhancerOracle) (query : String) : Bool :=
  if query = "" then false
  else
    decide ((getQueryStats query).wordCount = 1) &&
      (detectProperNouns o query).hasProperNouns

/-- The keyword lists of QueryEnhancer.inferDomain. -/
def technicalTerms : List String := ["api", "code", "database", "server", "configuration", "system"]

def businessTerms : List String := ["policy", "process", "training", "compliance", "procedure"]

/-- QueryEnhancer.inferDomain (query-enhancer.js lines 320-335). -/
def inferDomain (query : String) : String :=
  if query = "" then "general"
  else
    let lowerQuery := jsLower query
    if technicalTerms.any (fun t => jsIncludes lowerQuery t) then "technical"
    else if businessTerms.any (fun t => jsIncludes lowerQuery t) then "business"
    else "general"

/-- The indicator lists of QueryEnhancer.inferIntent (distinct from the
ContextualWeighter lists). -/
def enhancerFactualIndicators : List String := ["what", "when", "where", "who", "how"]

def enhancerExploratoryIndicators : List String := ["similar", "like", "about", "related"]

/-- QueryEnhancer.inferIntent (query-enhancer.js lines 342-357). -/
def inferIntent (query : String) : String :=
  if query = "" then "general"
  else
    let lowerQuery := jsLower query
    if enhancerFactualIndicators.any (fun i => jsIncludes lowerQuery i) then "factual"
    else if enhancerExploratoryIndicators.any (fun i => jsIncludes lowerQuery i) then
      "exploratory"
    else "general"

/-- QueryEnhancer constructor options. -/
structure EnhancerOptions where
  enableRegionalDetection : Bool
  enableProperNounDetection : Bool
  deriving Repr, DecidableEq

/-- Default QueryEnhancer options: both detections enabled. -/
def defaultEnhancerOptions : EnhancerOptions := ⟨true, true⟩

/-- The record returned by QueryEnhancer.enhanceQuery. -/
structure Enhancement where
  originalQuery : String
  detectedRegion : Option String
  properNouns : ProperNounResult
  queryStats : QueryStats
  shouldAutoDisableRerank : Bool
  domain : String
  intent : String
  deriving Repr, DecidableEq

/-- QueryEnhancer._getEmptyEnhancement (query-enhancer.js lines 254-264). -/
def emptyEnhancement : Enhancement :=
  { originalQuery := ""
    detectedRegion := none
    properNouns := emptyProperNouns
    queryStats := ⟨0, 0, 0⟩
    shouldAutoDisableRerank := false
    domain := "general"
    intent := "general" }

/-- QueryEnhancer.enhanceQuery (query-enhancer.js lines 30-63).  The result
type is Except to record that this JavaScript method, unlike
QueryAnalyzer.analyzeQuery, contains no throw: a falsy query is answered with
the empty enhancement, every other query with a normal result. -/
def enhanceQuery (opts : EnhancerOptions) (o : EnhancerOracle) (query : String) :
    Except String Enhancement :=
  if query = "" then Except.ok emptyEnhancement
  else
    Except.ok
      { originalQuery := query
        detectedRegion := if opts.enableRegionalDetection then o.detectRegion query
          else none
        properNouns := if opts.enableProperNounDetection then detectProperNouns o query
          else emptyProperNouns
        queryStats := getQueryStats query
        shouldAutoDisableRerank := shouldAutoDisableRerank o query
        domain := inferDomain query
        intent := inferIntent query }

/-! ## WeightCombiner -/

/-- WeightCombiner constructor options (part_000 lines 7-38). -/
structure CombinerOptions where
  analysisWeight : ℚ
  contextualWeight : ℚ
  regionalBias : ℚ
  longQueryBoost : ℚ
  mediumQueryBoost : ℚ
  knowledgeQueryBoost : ℚ
  properNounLexicalWeight : ℚ
  properNounSemanticWeight : ℚ
  minWeight : ℚ
  maxWeight : ℚ
  deriving Repr, DecidableEq

/-- The default WeightCombiner configuration: analysisWeight 0.4,
contextualWeight 0.6, regionalBias 0.12, longQueryBoost 0.30,
mediumQueryBoost 0.20, knowledgeQueryBoost 0.25, proper-noun pair 0.75/0.25,
weight bounds 0.1 and 0.9. -/
def defaultCombinerOptions : CombinerOptions :=
  { analysisWeight := 2/5
    contextualWeight := 3/5
    regionalBias := 3/25
    longQueryBoost := 3/10
    mediumQueryBoost := 1/5
    knowledgeQueryBoost := 1/4
    properNounLexicalWeight := 3/4
    properNounSemanticWeight := 1/4
    minWeight := 1/10
    maxWeight := 9/10 }

/-- The knowledge-seeking patterns of the WeightCombiner constructor. -/
def knowledgePatternsList : List String :=
  ["explain", "understand", "learn", "concept", "meaning", "definition",
   "guide", "tutorial", "how does", "why does", "what is", "how to",
   "overview", "introduction", "basics", "fundamentals"]

/-- The decision record returned by WeightCombiner.combineWeights; the
properNouns field is present only when proper nouns were detected. -/
structure WeightDecision where
  lexicalWeight : ℚ
  semanticWeight : ℚ
  confidence : ℚ
  strategy : String
  reasoning : List String
  properNouns : Option (List String)
  deriving Repr, DecidableEq

/-- WeightCombiner._clamp. -/
def clampW (opts : CombinerOptions) (value : ℚ) : ℚ :=
  max opts.minWeight (min opts.maxWeight value)

/-- WeightCombiner._isShortProperNounQuery. -/
def isShortProperNounQuery (qe : Enhancement) : Bool :=
  qe.queryStats.wordCount ≤ 2 && qe.properNouns.hasProperNouns

/-- WeightCombiner._detectKnowledgeQuery: case-insensitive substring match
against the knowledge patterns. -/
def detectKnowledgeQuery (patterns : List String) (query : String) : Bool :=
  if query = "" then false
  else
    let queryLower := jsLower query
    patterns.any (fun p => jsIncludes queryLower p)

/-- WeightCombiner._applyRegionalAdjustment (part_000 lines 162-174): shift
lexical down and semantic up by regionalBias, clamp each side, renormalize to
sum 1. -/
def applyRegionalAdjustment (opts : CombinerOptions) (lexicalWeight semanticWeight : ℚ) :
    ℚ × ℚ :=
  let adjustedLexicalWeight := max opts.minWeight (lexicalWeight - opts.regionalBias)
  let adjustedSemanticWeight := min opts.maxWeight (semanticWeight + opts.regionalBias)
  let total := adjustedLexicalWeight + adjustedSemanticWeight
  (adjustedLexicalWeight / total, adjustedSemanticWeight / total)

/-- WeightCombiner._calculateConfidence (part_000 lines 200-214). -/
def calculateConfidence (qa : AnalyzerDecision) (cw : ContextualSignal)
    (qe : Enhancement) : ℚ :=
  let confidence := (qa.confidence + cw.confidence) / 2
  let confidence := if qe.properNouns.hasProperNouns then
    max confidence qe.properNouns.confidence else confidence
  if qe.detectedRegion.isSome then min 1 (confidence + 1/10) else confidence

/-- WeightCombiner._determineStrategy (part_000 lines 220-233).  The fallback
queryAnalysis.strategy || 'balanced_hybrid' fires on the one falsy string, the
empty string. -/
def determineStrategy (qa : AnalyzerDecision) (qe : Enhancement) : String :=
  if isShortProperNounQuery qe then "short_proper_noun_lexical"
  else if qe.detectedRegion.isSome then "regional_semantic_enhanced"
  else if qa.strategy = "" then "balanced_hybrid"
  else qa.strategy

/-- Renders Math.round(x * 100) for the reasoning strings. -/
def pctOf (x : ℚ) : String := toString (jsRound (x * 100))

/-- WeightCombiner._handleProperNounQuery (part_000 lines 127-156): fixed
configured weight pair, confidence 0.95, forced strategy, with the regional
adjustment still applied when a region was detected. -/
def handleProperNounQuery (opts : CombinerOptions) (qa : AnalyzerDecision)
    (cw : ContextualSignal) (qe : Enhancement) : WeightDecision :=
  let lexicalWeight := opts.properNounLexicalWeight
  let semanticWeight := opts.properNounSemanticWeight
  let reasoning := qa.reasoning ++ cw.reasoning ++
    ["Short query (" ++ toString qe.queryStats.wordCount ++
     " words) with proper nouns detected (" ++
     String.intercalate ", " qe.properNouns.properNouns ++ ") - extra " ++
     pctOf (opts.properNounLexicalWeight - 1/2) ++ "% lexical boost"]
  let adjusted := match qe.detectedRegion with
    | some _ => applyRegionalAdjustment opts lexicalWeight semanticWeight
    | none => (lexicalWeight, semanticWeight)
  let reasoning := match qe.detectedRegion with
    | some region => reasoning ++
      ["Regional query detected (" ++ region ++ ") - extra " ++
       pctOf opts.regionalBias ++ "% semantic boost"]
    | none => reasoning
  { lexicalWeight := adjusted.1
    semanticWeight := adjusted.2
    confidence := 19/20
    strategy := "short_proper_noun_lexical"
    reasoning := reasoning
    properNouns := some qe.properNouns.properNouns }

/-- The semantic-boost block of combineWeights (part_000 lines 88-100): when
the accumulated boost is positive, shift weight from lexical to semantic,
clamp each side, renormalize to sum 1; otherwise leave the pair unchanged. -/
def boostStep (opts : CombinerOptions) (semanticBoost finalLexicalWeight finalSemanticWeight : ℚ) :
    ℚ × ℚ :=
  if 0 < semanticBoost then
    let adjustedLexicalWeight := finalLexicalWeight * (1 - semanticBoost)
    let adjustedSemanticWeight := finalSemanticWeight + finalLexicalWeight * semanticBoost
    let fL := max opts.minWeight adjustedLexicalWeight
    let fS := min opts.maxWeight adjustedSemanticWeight
    let total := fL + fS
    (fL / total, fS / total)
  else (finalLexicalWeight, finalSemanticWeight)

/-- The length-based plus knowledge-based semantic boost accumulated by
combineWeights (part_000 lines 69-86). -/
def semanticBoostOf (opts : CombinerOptions) (patterns : List String)
    (qe : Enhancement) (query : String) : ℚ :=
  (if 4 ≤ qe.queryStats.wordCount then opts.longQueryBoost
   else if 2 ≤ qe.queryStats.wordCount then opts.mediumQueryBoost
   else 0) +
  (if detectKnowledgeQuery patterns query then opts.knowledgeQueryBoost else 0)

/-- WeightCombiner.combineWeights (part_000 lines 48-121): proper-noun
override first; otherwise fuse the two lexical weights with the configured
ratio, clamp, complement, apply the semantic boost block, apply the regional
adjustment, and assemble confidence, strategy and reasoning. -/
def combineWeights (opts : CombinerOptions) (patterns : List String)
    (qa : AnalyzerDecision) (cw : ContextualSignal) (qe : Enhancement)
    (query : String) : WeightDecision :=
  if isShortProperNounQuery qe then handleProperNounQuery opts qa cw qe
  else
    let combinedLexical := qa.lexicalWeight * opts.analysisWeight +
      cw.lexicalWeight * opts.contextualWeight
    let finalLexicalWeight := clampW opts combinedLexical
    let finalSemanticWeight := 1 - finalLexicalWeight
    let semanticBoost := semanticBoostOf opts patterns qe query
    let lengthReasoning :=
      if 4 ≤ qe.queryStats.wordCount then
        ["Long query (" ++ toString qe.queryStats.wordCount ++ " words) - extra " ++
         pctOf opts.longQueryBoost ++ "% semantic boost"]
      else if 2 ≤ qe.queryStats.wordCount then
        ["Medium query (" ++ toString qe.queryStats.wordCount ++ " words) - extra " ++
         pctOf opts.mediumQueryBoost ++ "% semantic boost"]
      else []
    let knowledgeReasoning :=
      if detectKnowledgeQuery patterns query then
        ["Knowledge-seeking query detected - extra " ++
         pctOf opts.knowledgeQueryBoost ++ "% semantic boost"]
      else []
    let boosted := boostStep opts semanticBoost finalLexicalWeight finalSemanticWeight
    let final := match qe.detectedRegion with
      | some _ => applyRegionalAdjustment opts boosted.1 boosted.2
      | none => boosted
    let regionReasoning := match qe.detectedRegion with
      | some region =>
        ["Regional query detected (" ++ region ++ ") - extra " ++
         pctOf opts.regionalBias ++ "% semantic boost"]
      | none => []
    { lexicalWeight := final.1
      semanticWeight := final.2
      confidence := calculateConfidence qa cw qe
      strategy := determineStrategy qa qe
      reasoning := qa.reasoning ++ cw.reasoning ++ lengthReasoning ++
        knowledgeReasoning ++ regionReasoning
      properNouns := if qe.properNouns.hasProperNouns then
        some qe.properNouns.properNouns else none }

/-! ## The orchestrating weight pipeline
(lib/dynamic-search-engine.js, search() phases 1-4, lines 71-127) -/

/-- String.prototype.trim (ASCII model). -/
def jsTrim (s : String) : String :=
  ⟨((s.data.dropWhile jsIsSpace).reverse.dropWhile jsIsSpace).reverse⟩

/-- The validation of DynamicSearchEngine.search (line 72): the query must be
truthy (non-empty) and its trimmed form must have non-zero length. -/
def engineQueryValid (query : String) : Bool :=
  !(query = "") && !((jsTrim query).length = 0)

/-- Phases 1-4 of DynamicSearchEngine.search (lines 71-127): validate, run
QueryAnalyzer.analyzeQuery on the trimmed query (its throw aborts the
pipeline), run QueryEnhancer.enhanceQuery, await
ContextualWeighter.calculateContextualWeights, and only then invoke
WeightCombiner.combineWeights on the three results.  Caching of final results
and the later query-building/search phases are outside the weight core. -/
def weightPipeline (aOpts : AnalyzerOptions) (aOracle : AnalyzerOracle)
    (eOpts : EnhancerOptions) (eOracle : EnhancerOracle)
    (cached : Option (CorpusStats × ℚ)) (now cacheTTL : ℚ)
    (statsFetch : Except String RawCorpusAggs)
    (overlapFetch : Except String (List String))
    (cOpts : CombinerOptions) (patterns : List String)
    (query : String) (context : AnalyzerContext) : Except String WeightDecision :=
  if !engineQueryValid query then
    Except.error "Query is required and must be a non-empty string"
  else
    let cleanQuery := jsTrim query
    match analyzeQuery aOpts aOracle cleanQuery context with
    | Except.error e => Except.error e
    | Except.ok queryAnalysis =>
      match enhanceQuery eOpts eOracle cleanQuery with
      | Except.error e => Except.error e
      | Except.ok queryEnhancement =>
        let contextualWeights := calculateContextualWeights cleanQuery cached now
          cacheTTL statsFetch overlapFetch context
        Except.ok
          (combineWeights cOpts patterns queryAnalysis contextualWeights
            queryEnhancement cleanQuery)

/-! ## Spec-side abbreviations and concrete fixtures used by the theorems -/

/-- The maximum of the three intent scores, Math.max(...Object.values(scores)). -/
def intentMax (query : String) : ℚ :=
  max (intentScores query).1 (max (intentScores query).2.1 (intentScores query).2.2)

/-- An analyzer oracle describing an NLP library that reports nothing and
regex patterns that match nothing. -/
def quietAnalyzerOracle : AnalyzerOracle :=
  { nlp := fun _ => ⟨[], [], []⟩, entityPatternMatches := fun _ => 0 }

/-- An enhancer oracle describing an NLP library that reports nothing, an
empty dictionary and no regional match. -/
def quietEnhancerOracle : EnhancerOracle :=
  { nlp := fun _ => ⟨⟨false, ""⟩, ⟨false, ""⟩, ⟨false, ""⟩, ⟨false, ""⟩, ⟨false, ""⟩⟩
    isEnglishWord := fun _ => false
    detectRegion := fun _ => none }

/-- A concrete analysis record (the analysis of a plain two-word query). -/
def sampleAnalysis : QueryAnalysis :=
  { wordCount := 2, entityCount := 0, conceptualCount := 0, exactMatchCount := 0,
    quotedPhrases := 0, avgWordLength := some 5, uniqueWordFrac := some 1,
    entityFrac := 0, conceptualFrac := 0, exactMatchFrac := 0,
    hasVerbs := false, hasNouns := true, complexity := 0 }

/-- A concrete QueryAnalyzer decision with weights 0.6/0.4. -/
def sampleAnalyzerDecision : AnalyzerDecision :=
  { lexicalWeight := 3/5, semanticWeight := 2/5, confidence := 3/5,
    analysis := sampleAnalysis, strategy := "balanced", reasoning := [] }

/-- A concrete contextual signal with weights 0.6/0.4. -/
def sampleContextualSignal : ContextualSignal :=
  { lexicalWeight := 3/5, semanticWeight := 2/5, confidence := 3/5, reasoning := [],
    corpusStats := defaultCorpusStats, queryCorpusOverlap := 1/2,
    userIntent := "exploratory", intentConfidence := 0 }

/-- A concrete enhancement of a six-word query with no proper nouns and no
region. -/
def sampleLongEnhancement : Enhancement :=
  { originalQuery := "how to understand machine learning basics"
    detectedRegion := none
    properNouns := emptyProperNouns
    queryStats := ⟨6, 41, 6⟩
    shouldAutoDisableRerank := false
    domain := "general"
    intent := "factual" }

/-- A concrete enhancement of a one-word proper-noun query with no region. -/
def sampleProperNounEnhancement : Enhancement :=
  { originalQuery := "Microsoft"
    detectedRegion := none
    properNouns := ⟨true, ["Microsoft"], 7/10, [⟨"Microsoft", 7/10, ["capitalized_non_dictionary"], none⟩]⟩
    queryStats := ⟨1, 9, 9⟩
    shouldAutoDisableRerank := true
    domain := "general"
    intent := "general" }

/-- A concrete enhancement of a plain two-word query. -/
def sampleShortEnhancement : Enhancement :=
  { originalQuery := "hello world"
    detectedRegion := none
    properNouns := emptyProperNouns
    queryStats := ⟨2, 11, 5⟩
    shouldAutoDisableRerank := false
    domain := "general"
    intent := "general" }

/-! ## Helper lemmas -/

/-- Clamping x and 1 - x to the symmetric interval [0.1, 0.9] keeps their
sum at exactly 1. -/
theorem clamp_add_clamp_compl (x : ℚ) :
    max (1/10) (min (9/10) x) + max (1/10) (min (9/10) (1 - x)) = 1 := by
  simp only [max_def, min_def]
  split_ifs <;> linarith

/-- The two renormalized shares of a pair of positive quantities sum to 1. -/
theorem ratio_sum (a b : ℚ) (ha : 0 < a) (hb : 0 < b) :
    a / (a + b) + b / (a + b) = 1 := by
  have h : a + b ≠ 0 := by positivity
  field_simp

/-- A renormalized share of two quantities from [0.1, 0.9] stays in
[0.1, 0.9]. -/
theorem ratio_bounds (a b : ℚ) (ha1 : 1/10 ≤ a) (ha2 : a ≤ 9/10)
    (hb1 : 1/10 ≤ b) (hb2 : b ≤ 9/10) :
    1/10 ≤ a / (a + b) ∧ a / (a + b) ≤ 9/10 := by
  have hab : (0 : ℚ) < a + b := by linarith
  constructor
  · rw [le_div_iff₀ hab]; nlinarith
  · rw [div_le_iff₀ hab]; nlinarith

/-- Wellformedness of a weight pair: lexical in [0.1, 0.9] and the pair sums
to 1 (so the semantic side is also in [0.1, 0.9]). -/
def weightPairOK (p : ℚ × ℚ) : Prop :=
  1/10 ≤ p.1 ∧ p.1 ≤ 9/10 ∧ p.1 + p.2 = 1

theorem clampW_default_mem (x : ℚ) :
    1/10 ≤ clampW defaultCombinerOptions x ∧ clampW defaultCombinerOptions x ≤ 9/10 := by
  constructor
  · exact le_max_left _ _
  · exact max_le (by norm_num [defaultCombinerOptions]) (min_le_left _ _)

theorem boostStep_ok (boost l s : ℚ) (hb0 : 0 ≤ boost) (hb1 : boost ≤ 1)
    (h1 : 1/10 ≤ l) (h2 : l ≤ 9/10) (h3 : l + s = 1) :
    weightPairOK (boostStep defaultCombinerOptions boost l s) := by
  unfold boostStep
  split_ifs with hpos
  · have hminW : defaultCombinerOptions.minWeight = 1/10 := by norm_num [defaultCombinerOptions]
    have hmaxW : defaultCombinerOptions.maxWeight = 9/10 := by norm_num [defaultCombinerOptions]
    rw [hminW, hmaxW]
    set fL := max (1/10) (l * (1 - boost)) with hfL
    set fS := min (9/10) (s + l * boost) with hfS
    have hfL1 : 1/10 ≤ fL := le_max_left _ _
    have hfL2 : fL ≤ 9/10 := by
      apply max_le (by norm_num)
      nlinarith
    have hfS2 : fS ≤ 9/10 := min_le_left _ _
    have hfS1 : 1/10 ≤ fS := by
      apply le_min (by norm_num)
      nlinarith
    refine ⟨(ratio_bounds fL fS hfL1 hfL2 hfS1 hfS2).1,
      (ratio_bounds fL fS hfL1 hfL2 hfS1 hfS2).2, ?_⟩
    exact ratio_sum fL fS (by linarith) (by linarith)
  · exact ⟨h1, h2, h3⟩

theorem applyRegionalAdjustment_ok (l s : ℚ)
    (h1 : 1/10 ≤ l) (h2 : l ≤ 9/10) (h3 : l + s = 1) :
    weightPairOK (applyRegionalAdjustment defaultCombinerOptions l s) := by
  unfold applyRegionalAdjustment
  have hminW : defaultCombinerOptions.minWeight = 1/10 := by norm_num [defaultCombinerOptions]
  have hmaxW : defaultCombinerOptions.maxWeight = 9/10 := by norm_num [defaultCombinerOptions]
  have hbias : defaultCombinerOptions.regionalBias = 3/25 := by norm_num [defaultCombinerOptions]
  rw [hminW, hmaxW, hbias]
  set a := max (1/10) (l - 3/25) with ha
  set b := min (9/10) (s + 3/25) with hb
  have ha1 : 1/10 ≤ a := le_max_left _ _
  have ha2 : a ≤ 9/10 := by
    apply max_le (by norm_num)
    linarith
  have hb2 : b ≤ 9/10 := min_le_left _ _
  have hb1 : 1/10 ≤ b := by
    apply le_min (by norm_num)
    linarith
  refine ⟨(ratio_bounds a b ha1 ha2 hb1 hb2).1, (ratio_bounds a b ha1 ha2 hb1 hb2).2, ?_⟩
  exact ratio_sum a b (by linarith) (by linarith)

theorem semanticBoostOf_mem (qe : Enhancement) (query : String) :
    0 ≤ semanticBoostOf defaultCombinerOptions knowledgePatternsList qe query ∧
    semanticBoostOf defaultCombinerOptions knowledgePatternsList qe query ≤ 1 := by
  unfold semanticBoostOf
  split_ifs <;> norm_num [defaultCombinerOptions]

/-- The non-override path of combineWeights with the default configuration
always produces a well-formed weight pair. -/
theorem combineWeights_nonoverride_ok (qa : AnalyzerDecision) (cw : ContextualSignal)
    (qe : Enhancement) (query : String) (hov : isShortProperNounQuery qe = false) :
    weightPairOK
      ((combineWeights defaultCombinerOptions knowledgePatternsList qa cw qe query).lexicalWeight,
       (combineWeights defaultCombinerOptions knowledgePatternsList qa cw qe query).semanticWeight) := by
  have hboost := semanticBoostOf_mem qe query
  have hclamp := clampW_default_mem (qa.lexicalWeight * defaultCombinerOptions.analysisWeight +
    cw.lexicalWeight * defaultCombinerOptions.contextualWeight)
  simp only [combineWeights, hov, Bool.false_eq_true, if_false]
  have hbase := boostStep_ok
    (semanticBoostOf defaultCombinerOptions knowledgePatternsList qe query)
    (clampW defaultCombinerOptions (qa.lexicalWeight * defaultCombinerOptions.analysisWeight +
      cw.lexicalWeight * defaultCombinerOptions.contextualWeight))
    (1 - clampW defaultCombinerOptions (qa.lexicalWeight * defaultCombinerOptions.analysisWeight +
      cw.lexicalWeight * defaultCombinerOptions.contextualWeight))
    hboost.1 hboost.2 hclamp.1 hclamp.2 (by ring)
  cases hreg : qe.detectedRegion with
  | none =>
    simp only [hreg]
    exact hbase
  | some r =>
    simp only [hreg]
    exact applyRegionalAdjustment_ok _ _ hbase.1 hbase.2.1 hbase.2.2

/-- Both weights produced by QueryAnalyzer._calculateWeights are complements
of each other before clamping. -/
theorem calculateWeights_semantic (opts : AnalyzerOptions) (a : QueryAnalysis)
    (context : AnalyzerContext) :
    (calculateWeights opts a context).semantic = 1 - (calculateWeights opts a context).lexical := rfl

/-- Both weights produced by ContextualWeighter are complements of each
other. -/
theorem calculateContextualWeights_semantic (query : String)
    (cached : Option (CorpusStats × ℚ)) (now cacheTTL : ℚ)
    (statsFetch : Except String RawCorpusAggs)
    (overlapFetch : Except String (List String)) (context : AnalyzerContext) :
    (calculateContextualWeights query cached now cacheTTL statsFetch overlapFetch context).semanticWeight =
    1 - (calculateContextualWeights query cached now cacheTTL statsFetch overlapFetch context).lexicalWeight := rfl

/-! ## C1 -/

/-- C1: for every decision returned by WeightCombiner.combineWeights (override
path or not), for every decision returned by QueryAnalyzer.analyzeQuery on a
valid query, and for every decision returned by
ContextualWeighter.calculateContextualWeights, lexicalWeight + semanticWeight
equals 1 exactly (hence within 1e-9), under the default configuration and
well-formed inputs whose own weights sum to 1. -/
theorem C1_weights_sum_to_one :
    (∀ (qa : AnalyzerDecision) (cw : ContextualSignal) (qe : Enhancement) (query : String),
      qa.lexicalWeight + qa.semanticWeight = 1 →
      cw.lexicalWeight + cw.semanticWeight = 1 →
      (combineWeights defaultCombinerOptions knowledgePatternsList qa cw qe query).lexicalWeight +
        (combineWeights defaultCombinerOptions knowledgePatternsList qa cw qe query).semanticWeight = 1) ∧
    (∀ (o : AnalyzerOracle) (query : String) (context : AnalyzerContext),
      query ≠ "" →
      (analyzeQuery defaultAnalyzerOptions o query context).map
        (fun d => d.lexicalWeight + d.semanticWeight) = Except.ok 1) ∧
    (∀ (query : String) (cached : Option (CorpusStats × ℚ)) (now cacheTTL : ℚ)
      (statsFetch : Except String RawCorpusAggs)
      (overlapFetch : Except String (List String)) (context : AnalyzerContext),
      (calculateContextualWeights query cached now cacheTTL statsFetch overlapFetch
          context).lexicalWeight +
        (calculateContextualWeights query cached now cacheTTL statsFetch overlapFetch
          context).semanticWeight = 1) := by
  refine ⟨?_, ?_, ?_⟩
  · intro qa cw qe query _ _
    cases hov : isShortProperNounQuery qe with
    | false => exact (combineWeights_nonoverride_ok qa cw qe query hov).2.2
    | true =>
      simp only [combineWeights, hov, if_true, handleProperNounQuery]
      cases hreg : qe.detectedRegion with
      | none => norm_num [defaultCombinerOptions]
      | some r =>
        have h := applyRegionalAdjustment_ok
          defaultCombinerOptions.properNounLexicalWeight
          defaultCombinerOptions.properNounSemanticWeight
          (by norm_num [defaultCombinerOptions]) (by norm_num [defaultCombinerOptions])
          (by norm_num [defaultCombinerOptions])
        simpa using h.2.2
  · intro o query context hq
    simp only [analyzeQuery, if_neg hq, Except.map]
    rw [calculateWeights_semantic]
    rw [clamp_add_clamp_compl]
  · intro query cached now cacheTTL statsFetch overlapFetch context
    rw [calculateContextualWeights_semantic]
    ring

/-- Witness for C1 at concrete inputs. -/
theorem C1_weights_sum_to_one_witness :
    ((combineWeights defaultCombinerOptions knowledgePatternsList sampleAnalyzerDecision
        sampleContextualSignal sampleShortEnhancement "hello world").lexicalWeight +
      (combineWeights defaultCombinerOptions knowledgePatternsList sampleAnalyzerDecision
        sampleContextualSignal sampleShortEnhancement "hello world").semanticWeight = 1) ∧
    ((analyzeQuery defaultAnalyzerOptions quietAnalyzerOracle "hello world"
        ⟨none, none⟩).map (fun d => d.lexicalWeight + d.semanticWeight) = Except.ok 1) ∧
    ((calculateContextualWeights "hello world" none 0 0 (Except.error "down")
        (Except.error "down") ⟨none, none⟩).lexicalWeight +
      (calculateContextualWeights "hello world" none 0 0 (Except.error "down")
        (Except.error "down") ⟨none, none⟩).semanticWeight = 1) :=
  ⟨C1_weights_sum_to_one.1 sampleAnalyzerDecision sampleContextualSignal
      sampleShortEnhancement "hello world"
      (by norm_num [sampleAnalyzerDecision]) (by norm_num [sampleContextualSignal]),
   C1_weights_sum_to_one.2.1 quietAnalyzerOracle "hello world" ⟨none, none⟩ (by decide),
   C1_weights_sum_to_one.2.2 "hello world" none 0 0 (Except.error "down")
      (Except.error "down") ⟨none, none⟩⟩

/-! ## C2 -/

/-- C2: whenever the enhancement reports wordCount ≤ 2 and detected proper
nouns, combineWeights returns strategy short_proper_noun_lexical with
confidence ≥ 0.95 (in fact exactly 0.95), and under the default configuration
with no detected region the weights are 0.75 / 0.25, irrespective of the
feature decision and the contextual signal. -/
theorem C2_proper_noun_override (qa : AnalyzerDecision) (cw : ContextualSignal)
    (qe : Enhancement) (query : String)
    (hwc : qe.queryStats.wordCount ≤ 2)
    (hpn : qe.properNouns.hasProperNouns = true) :
    (combineWeights defaultCombinerOptions knowledgePatternsList qa cw qe query).strategy =
      "short_proper_noun_lexical" ∧
    (19/20 : ℚ) ≤
      (combineWeights defaultCombinerOptions knowledgePatternsList qa cw qe query).confidence ∧
    (qe.detectedRegion = none →
      (combineWeights defaultCombinerOptions knowledgePatternsList qa cw qe query).lexicalWeight = 3/4 ∧
      (combineWeights defaultCombinerOptions knowledgePatternsList qa cw qe query).semanticWeight = 1/4) := by
  have hov : isShortProperNounQuery qe = true := by
    simp [isShortProperNounQuery, hpn, hwc]
  simp only [combineWeights, hov, if_true, handleProperNounQuery]
  refine ⟨by trivial, by norm_num, ?_⟩
  intro hreg
  simp only [hreg]
  norm_num [defaultCombinerOptions]

/-- Witness for C2: the one-word query "Microsoft" with a detected proper
noun and no region. -/
theorem C2_proper_noun_override_witness :
    (combineWeights defaultCombinerOptions knowledgePatternsList sampleAnalyzerDecision
      sampleContextualSignal sampleProperNounEnhancement "Microsoft").strategy =
      "short_proper_noun_lexical" ∧
    (19/20 : ℚ) ≤ (combineWeights defaultCombinerOptions knowledgePatternsList
      sampleAnalyzerDecision sampleContextualSignal sampleProperNounEnhancement
      "Microsoft").confidence ∧
    (sampleProperNounEnhancement.detectedRegion = none →
      (combineWeights defaultCombinerOptions knowledgePatternsList sampleAnalyzerDecision
        sampleContextualSignal sampleProperNounEnhancement "Microsoft").lexicalWeight = 3/4 ∧
      (combineWeights defaultCombinerOptions knowledgePatternsList sampleAnalyzerDecision
        sampleContextualSignal sampleProperNounEnhancement "Microsoft").semanticWeight = 1/4) :=
  C2_proper_noun_override sampleAnalyzerDecision sampleContextualSignal
    sampleProperNounEnhancement "Microsoft" (by decide) (by decide)

/-! ## C3 -/

/-- C3: every decision of combineWeights that does not take the proper-noun
override path has its final lexicalWeight inside
[minWeight, maxWeight] = [0.1, 0.9] under the default configuration, after all
boost and regional renormalization steps, for well-formed inputs whose weights
sum to 1. -/
theorem C3_nonoverride_lexical_in_bounds (qa : AnalyzerDecision) (cw : ContextualSignal)
    (qe : Enhancement) (query : String)
    (hov : isShortProperNounQuery qe = false)
    (hqa : qa.lexicalWeight + qa.semanticWeight = 1)
    (hcw : cw.lexicalWeight + cw.semanticWeight = 1) :
    defaultCombinerOptions.minWeight ≤
      (combineWeights defaultCombinerOptions knowledgePatternsList qa cw qe query).lexicalWeight ∧
    (combineWeights defaultCombinerOptions knowledgePatternsList qa cw qe query).lexicalWeight ≤
      defaultCombinerOptions.maxWeight := by
  have h := combineWeights_nonoverride_ok qa cw qe query hov
  have hminW : defaultCombinerOptions.minWeight = 1/10 := by norm_num [defaultCombinerOptions]
  have hmaxW : defaultCombinerOptions.maxWeight = 9/10 := by norm_num [defaultCombinerOptions]
  rw [hminW, hmaxW]
  exact ⟨h.1, h.2.1⟩

/-- Witness for C3 at concrete inputs without proper nouns. -/
theorem C3_nonoverride_lexical_in_bounds_witness :
    defaultCombinerOptions.minWeight ≤
      (combineWeights defaultCombinerOptions knowledgePatternsList sampleAnalyzerDecision
        sampleContextualSignal sampleShortEnhancement "hello world").lexicalWeight ∧
    (combineWeights defaultCombinerOptions knowledgePatternsList sampleAnalyzerDecision
      sampleContextualSignal sampleShortEnhancement "hello world").lexicalWeight ≤
      defaultCombinerOptions.maxWeight :=
  C3_nonoverride_lexical_in_bounds sampleAnalyzerDecision sampleContextualSignal
    sampleShortEnhancement "hello world" (by decide)
    (by norm_num [sampleAnalyzerDecision]) (by norm_num [sampleContextualSignal])

/-! ## C4 -/

/-- C4 (amended): for a query with word count ≥ 4 matching a knowledge-seeking
phrase, no proper nouns and no region, whose base fused lexical weight is 0.6,
the combined boost 0.30 + 0.25 = 0.55 is applied multiplicatively: the
adjusted lexical weight 0.6 × (1 − 0.55) = 0.27 stays above minWeight, so no
clamping occurs and the final decision is lexicalWeight = 0.27,
semanticWeight = 0.73 (not minWeight 0.1 / 0.9). -/
theorem C4_long_knowledge_query_weights (qa : AnalyzerDecision) (cw : ContextualSignal)
    (qe : Enhancement) (query : String)
    (hwc : 4 ≤ qe.queryStats.wordCount)
    (hknow : detectKnowledgeQuery knowledgePatternsList query = true)
    (hpn : qe.properNouns.hasProperNouns = false)
    (hreg : qe.detectedRegion = none)
    (hbase : qa.lexicalWeight * defaultCombinerOptions.analysisWeight +
      cw.lexicalWeight * defaultCombinerOptions.contextualWeight = 3/5) :
    (combineWeights defaultCombinerOptions knowledgePatternsList qa cw qe query).lexicalWeight
      = 27/100 ∧
    (combineWeights defaultCombinerOptions knowledgePatternsList qa cw qe query).semanticWeight
      = 73/100 := by
  have hov : isShortProperNounQuery qe = false := by
    simp [isShortProperNounQuery, hpn]
  have hsb : semanticBoostOf defaultCombinerOptions knowledgePatternsList qe query = 11/20 := by
    simp only [semanticBoostOf, hknow, if_pos hwc, if_true]
    norm_num [defaultCombinerOptions]
  have hcl : clampW defaultCombinerOptions
      (qa.lexicalWeight * defaultCombinerOptions.analysisWeight +
        cw.lexicalWeight * defaultCombinerOptions.contextualWeight) = 3/5 := by
    rw [hbase]
    norm_num [clampW, defaultCombinerOptions, max_def, min_def]
  have hbs : boostStep defaultCombinerOptions (11/20) (3/5) (1 - 3/5) = (27/100, 73/100) := by
    norm_num [boostStep, defaultCombinerOptions, max_def, min_def]
  simp only [combineWeights, hov, Bool.false_eq_true, if_false, hreg, hsb, hcl, hbs]
  exact ⟨trivial, trivial⟩

/-- Counterexample to C4 as stated: at a concrete seven-word knowledge query
whose base fused lexical weight is 0.6, combineWeights returns
lexicalWeight 0.27 and semanticWeight 0.73, not the claimed clamped pair
0.1 / 0.9. -/
theorem C4_counterexample :
    (combineWeights defaultCombinerOptions knowledgePatternsList sampleAnalyzerDecision
      sampleContextualSignal sampleLongEnhancement
      "how to understand machine learning basics").lexicalWeight = 27/100 ∧
    (combineWeights defaultCombinerOptions knowledgePatternsList sampleAnalyzerDecision
      sampleContextualSignal sampleLongEnhancement
      "how to understand machine learning basics").semanticWeight = 73/100 ∧
    ¬((combineWeights defaultCombinerOptions knowledgePatternsList sampleAnalyzerDecision
      sampleContextualSignal sampleLongEnhancement
      "how to understand machine learning basics").lexicalWeight = 1/10) := by
  have hov : isShortProperNounQuery sampleLongEnhancement = false := by decide
  have hknow : detectKnowledgeQuery knowledgePatternsList
      "how to understand machine learning basics" = true := by decide
  have hwc : (4 : ℕ) ≤ sampleLongEnhancement.queryStats.wordCount := by decide
  have hsb : semanticBoostOf defaultCombinerOptions knowledgePatternsList
      sampleLongEnhancement "how to understand machine learning basics" = 11/20 := by
    simp only [semanticBoostOf, hknow, if_pos hwc, if_true]
    norm_num [defaultCombinerOptions]
  have hcl : clampW defaultCombinerOptions
      (sampleAnalyzerDecision.lexicalWeight * defaultCombinerOptions.analysisWeight +
        sampleContextualSignal.lexicalWeight * defaultCombinerOptions.contextualWeight)
      = 3/5 := by
    norm_num [clampW, sampleAnalyzerDecision, sampleContextualSignal,
      defaultCombinerOptions, max_def, min_def]
  have hbs : boostStep defaultCombinerOptions (11/20) (3/5) (1 - 3/5) = (27/100, 73/100) := by
    norm_num [boostStep, defaultCombinerOptions, max_def, min_def]
  have hreg : sampleLongEnhancement.detectedRegion = none := rfl
  simp only [combineWeights, hov, Bool.false_eq_true, if_false, hreg, hsb, hcl, hbs]
  norm_num

/-- Witness for the amended C4 at the same concrete inputs. -/
theorem C4_long_knowledge_query_weights_witness :
    (combineWeights defaultCombinerOptions knowledgePatternsList sampleAnalyzerDecision
      sampleContextualSignal sampleLongEnhancement
      "how to understand machine learning basics").lexicalWeight = 27/100 ∧
    (combineWeights defaultCombinerOptions knowledgePatternsList sampleAnalyzerDecision
      sampleContextualSignal sampleLongEnhancement
      "how to understand machine learning basics").semanticWeight = 73/100 :=
  C4_long_knowledge_query_weights sampleAnalyzerDecision sampleContextualSignal
    sampleLongEnhancement "how to understand machine learning basics"
    (by decide) (by decide) (by decide) rfl
    (by norm_num [sampleAnalyzerDecision, sampleContextualSignal, defaultCombinerOptions])

/-! ## C5 -/

/-- Counterexample to C5 as stated: for the empty query,
QueryEnhancer.enhanceQuery does not raise — it returns the empty enhancement
as a normal result. -/
theorem C5_counterexample :
    enhanceQuery defaultEnhancerOptions quietEnhancerOracle "" =
      Except.ok emptyEnhancement := rfl

/-- C5 (amended): for the empty query, QueryAnalyzer.analyzeQuery raises
synchronously before any other processing, while QueryEnhancer.enhanceQuery
returns the empty enhancement without raising; the engine pipeline rejects
any query that trims to the empty string before WeightCombiner is invoked. -/
theorem C5_invalid_input (aOpts : AnalyzerOptions) (o : AnalyzerOracle)
    (context : AnalyzerContext) (eOpts : EnhancerOptions) (eo : EnhancerOracle)
    (aOracle : AnalyzerOracle) (eOracle : EnhancerOracle)
    (cached : Option (CorpusStats × ℚ)) (now cacheTTL : ℚ)
    (statsFetch : Except String RawCorpusAggs)
    (overlapFetch : Except String (List String))
    (cOpts : CombinerOptions) (patterns : List String) (query : String)
    (htrim : jsTrim query = "") :
    analyzeQuery aOpts o "" context = Except.error "Query must be a non-empty string" ∧
    enhanceQuery eOpts eo "" = Except.ok emptyEnhancement ∧
    weightPipeline aOpts aOracle eOpts eOracle cached now cacheTTL statsFetch
      overlapFetch cOpts patterns query context =
      Except.error "Query is required and must be a non-empty string" := by
  have hv : engineQueryValid query = false := by
    simp [engineQueryValid, htrim]
  refine ⟨rfl, rfl, ?_⟩
  simp [weightPipeline, hv]

/-- Witness for the amended C5 at the empty query. -/
theorem C5_invalid_input_witness :
    analyzeQuery defaultAnalyzerOptions quietAnalyzerOracle "" ⟨none, none⟩ =
      Except.error "Query must be a non-empty string" ∧
    enhanceQuery defaultEnhancerOptions quietEnhancerOracle "" =
      Except.ok emptyEnhancement ∧
    weightPipeline defaultAnalyzerOptions quietAnalyzerOracle defaultEnhancerOptions
      quietEnhancerOracle none 0 0 (Except.error "down") (Except.error "down")
      defaultCombinerOptions knowledgePatternsList "" ⟨none, none⟩ =
      Except.error "Query is required and must be a non-empty string" :=
  C5_invalid_input defaultAnalyzerOptions quietAnalyzerOracle ⟨none, none⟩
    defaultEnhancerOptions quietEnhancerOracle quietAnalyzerOracle quietEnhancerOracle
    none 0 0 (Except.error "down") (Except.error "down")
    defaultCombinerOptions knowledgePatternsList "" (by decide)

/-! ## C6 -/

/-- No intent indicator occurs in the query "zzz", so all three scores are
zero. -/
theorem intentScores_zzz : intentScores "zzz" = (0, 0, 0) := by
  have h1 : factualIndicators.filter (fun i => jsIncludes (jsLower "zzz") i) = [] := by decide
  have h2 : exploratoryIndicators.filter (fun i => jsIncludes (jsLower "zzz") i) = [] := by
    decide
  have h3 : navigationalIndicators.filter (fun i => jsIncludes (jsLower "zzz") i) = [] := by
    decide
  simp only [intentScores]
  rw [h1, h2, h3]
  norm_num

/-- Counterexample to C6 as stated: for the query "zzz" no indicator matches
(all three scores are zero), yet inferUserIntent returns 'factual', not the
claimed tie/no-match default 'exploratory'. -/
theorem C6_counterexample :
    (inferUserIntent "zzz" ⟨none, none⟩).primary = "factual" ∧
    intentScores "zzz" = (0, 0, 0) := by
  refine ⟨?_, intentScores_zzz⟩
  simp only [inferUserIntent, intentScores_zzz, intentKeys]
  rw [List.find?_cons_of_pos]
  · rfl
  · simp

/-- C6 (amended): inferUserIntent returns the first label in the fixed order
factual, exploratory, navigational whose indicator-substring score equals the
maximum score; in particular ties and the no-match case (all scores zero)
resolve to the earliest tied label, not to 'exploratory'. -/
theorem C6_intent_first_max (query : String) (context : AnalyzerContext) :
    ((intentScores query).1 = intentMax query →
      (inferUserIntent query context).primary = "factual") ∧
    (¬(intentScores query).1 = intentMax query →
      (intentScores query).2.1 = intentMax query →
      (inferUserIntent query context).primary = "exploratory") ∧
    (¬(intentScores query).1 = intentMax query →
      ¬(intentScores query).2.1 = intentMax query →
      (inferUserIntent query context).primary = "navigational") := by
  simp only [intentMax]
  set m := max (intentScores query).1
    (max (intentScores query).2.1 (intentScores query).2.2) with hm
  refine ⟨?_, ?_, ?_⟩
  · intro h1
    simp only [inferUserIntent, intentKeys, ← hm]
    rw [List.find?_cons_of_pos]
    · rfl
    · simp [h1]
  · intro h1 h2
    simp only [inferUserIntent, intentKeys, ← hm]
    rw [List.find?_cons_of_neg, List.find?_cons_of_pos]
    · rfl
    · simp [h2]
    · simp [h1]
  · intro h1 h2
    have h3 : (intentScores query).2.2 = m := by
      rcases max_choice (intentScores query).1
          (max (intentScores query).2.1 (intentScores query).2.2) with h | h
      · rw [← hm] at h
        exact absurd h.symm h1
      · rcases max_choice (intentScores query).2.1 (intentScores query).2.2 with h' | h'
        · rw [← hm] at h
          rw [h] at h2 ⊢
          exact absurd h'.symm h2
        · rw [hm, h, h']
    simp only [inferUserIntent, intentKeys, ← hm]
    rw [List.find?_cons_of_neg, List.find?_cons_of_neg, List.find?_cons_of_pos]
    · rfl
    · simp [h3]
    · simp [h2]
    · simp [h1]

/-- Witness for the amended C6 at the query "zzz", whose factual score attains
the maximum. -/
theorem C6_intent_first_max_witness :
    (inferUserIntent "zzz" ⟨none, none⟩).primary = "factual" :=
  (C6_intent_first_max "zzz" ⟨none, none⟩).1
    (by rw [intentScores_zzz]; simp [intentMax, intentScores_zzz])

/-! ## C7 -/

/-- C7: when the external statistics fetch fails, calculateContextualWeights
does not propagate the error: it proceeds with the default statistics
(avgDocLength 500, termDiversity 0.5, totalDocs 1000); a failed
vocabulary-overlap computation yields overlap 0.5; and a normal
ContextualSignal (weights summing to 1, confidence within [0.3, 0.95]) is
still returned. -/
theorem C7_fail_open (query : String) (now cacheTTL : ℚ) (e1 e2 : String)
    (context : AnalyzerContext) :
    (calculateContextualWeights query none now cacheTTL (Except.error e1)
      (Except.error e2) context).corpusStats = defaultCorpusStats ∧
    (calculateContextualWeights query none now cacheTTL (Except.error e1)
      (Except.error e2) context).queryCorpusOverlap = 1/2 ∧
    (calculateContextualWeights query none now cacheTTL (Except.error e1)
      (Except.error e2) context).lexicalWeight +
      (calculateContextualWeights query none now cacheTTL (Except.error e1)
        (Except.error e2) context).semanticWeight = 1 ∧
    (3/10 : ℚ) ≤ (calculateContextualWeights query none now cacheTTL (Except.error e1)
      (Except.error e2) context).confidence ∧
    (calculateContextualWeights query none now cacheTTL (Except.error e1)
      (Except.error e2) context).confidence ≤ 19/20 := by
  have hov : calculateQueryCorpusOverlap query (Except.error e2) = 1/2 := by
    simp only [calculateQueryCorpusOverlap]
    split_ifs <;> rfl
  refine ⟨rfl, hov, ?_, ?_, ?_⟩
  · rw [calculateContextualWeights_semantic]; ring
  · exact le_max_left _ _
  · exact max_le (by norm_num) (min_le_left _ _)

/-! ## C8 -/

/-- C8: starting from a pre-regional pair with lexical + semantic = 1 and
lexical in [minWeight, maxWeight], the regional adjustment (shift, clamp and
renormalization) never increases the lexical weight and never decreases the
semantic weight. -/
theorem C8_regional_adjustment_monotone (l s : ℚ) (hsum : l + s = 1)
    (h1 : 1/10 ≤ l) (h2 : l ≤ 9/10) :
    (applyRegionalAdjustment defaultCombinerOptions l s).1 ≤ l ∧
    s ≤ (applyRegionalAdjustment defaultCombinerOptions l s).2 := by
  unfold applyRegionalAdjustment
  have hminW : defaultCombinerOptions.minWeight = 1/10 := by norm_num [defaultCombinerOptions]
  have hmaxW : defaultCombinerOptions.maxWeight = 9/10 := by norm_num [defaultCombinerOptions]
  have hbias : defaultCombinerOptions.regionalBias = 3/25 := by norm_num [defaultCombinerOptions]
  rw [hminW, hmaxW, hbias]
  dsimp only
  set a := max (1/10 : ℚ) (l - 3/25) with ha
  set b := min (9/10 : ℚ) (s + 3/25) with hb
  have htot : a + b = 1 := by
    rcases le_total l (11/50) with h | h
    · have ha' : a = 1/10 := by rw [ha]; exact max_eq_left (by linarith)
      have hb' : b = 9/10 := by rw [hb]; exact min_eq_left (by linarith)
      rw [ha', hb']; norm_num
    · have ha' : a = l - 3/25 := by rw [ha]; exact max_eq_right (by linarith)
      have hb' : b = s + 3/25 := by rw [hb]; exact min_eq_right (by linarith)
      rw [ha', hb']; linarith
  rw [htot]
  constructor
  · rw [div_one]
    exact max_le h1 (by linarith)
  · rw [div_one]
    exact le_min (by linarith) (by linarith)

/-- Witness for C8 at the balanced pair 0.5 / 0.5. -/
theorem C8_regional_adjustment_monotone_witness :
    (applyRegionalAdjustment defaultCombinerOptions (1/2) (1/2)).1 ≤ 1/2 ∧
    (1/2 : ℚ) ≤ (applyRegionalAdjustment defaultCombinerOptions (1/2) (1/2)).2 :=
  C8_regional_adjustment_monotone (1/2) (1/2) (by norm_num) (by norm_num) (by norm_num)

/-! ## Lemmas about blank strings, for C9 -/

/-- If the whitespace splitter returns no token, the accumulator was empty and
every character was whitespace. -/
theorem wsTokensAux_eq_nil (l : List Char) :
    ∀ cur, wsTokensAux l cur = [] → cur = [] ∧ l.all jsIsSpace = true := by
  induction l with
  | nil =>
    intro cur h
    by_cases hc : cur = []
    · exact ⟨hc, rfl⟩
    · rw [wsTokensAux, if_neg hc] at h
      exact absurd h (by simp)
  | cons c cs ih =>
    intro cur h
    rw [wsTokensAux] at h
    by_cases hsp : jsIsSpace c = true
    · rw [if_pos hsp] at h
      by_cases hc : cur = []
      · rw [if_pos hc] at h
        exact ⟨hc, by simp [List.all_cons, hsp, (ih [] h).2]⟩
      · rw [if_neg hc] at h
        exact absurd h (by simp)
    · rw [if_neg hsp] at h
      exact absurd (ih (c :: cur) h).1 (by simp)

/-- Lowercasing fixes whitespace characters. -/
theorem jsLowerChar_space (c : Char) (h : jsIsSpace c = true) : jsLowerChar c = c := by
  have hup : ¬(isUpperAZ c = true) := by
    simp only [isUpperAZ, Bool.and_eq_true, decide_eq_true_eq]
    simp only [jsIsSpace, Bool.or_eq_true, decide_eq_true_eq] at h
    omega
  simp [jsLowerChar, hup]

/-- Lowercasing fixes an all-whitespace character list. -/
theorem all_space_map_lower (l : List Char) (h : l.all jsIsSpace = true) :
    l.map jsLowerChar = l := by
  induction l with
  | nil => rfl
  | cons c cs ih =>
    simp only [List.all_cons, Bool.and_eq_true] at h
    simp [List.map_cons, jsLowerChar_space c h.1, ih h.2]

/-! ## C9 -/

/-- C9: for every query whose whitespace-separated word count is not exactly
1, detectProperNouns reports no proper nouns, an empty list and confidence 0
(given that the NLP library only reports matches containing at least one
non-whitespace character); consequently shouldAutoDisableRerank is true if and
only if the word count is exactly 1 and a proper noun was detected. -/
theorem C9_proper_nouns_single_word_only :
    (∀ (o : EnhancerOracle) (query : String),
      (getQueryStats query).wordCount ≠ 1 →
      (∀ c ∈ properNounChecks (o.nlp query), c.1.found = true →
        wsTokens (jsLower c.1.text).data ≠ []) →
      detectProperNouns o query = emptyProperNouns) ∧
    (∀ (o : EnhancerOracle) (query : String),
      shouldAutoDisableRerank o query = true ↔
        ((getQueryStats query).wordCount = 1 ∧
          (detectProperNouns o query).hasProperNouns = true)) := by
  constructor
  · intro o query hwc hwf
    by_cases hq : query = ""
    · subst hq; rfl
    · simp only [detectProperNouns, if_neg hq]
      rcases hts : wsTokens query.data with _ | ⟨t, rest⟩
      · -- the query is non-empty but entirely whitespace
        have hwords : jsTrimSplitWs query = [""] := by
          simp [jsTrimSplitWs, hts]
        rw [hwords, if_neg (by simp)]
        rcases hfind : (properNounChecks (o.nlp query)).find?
            (fun c => c.1.found && jsLower c.1.text = jsLower query) with _ | hit
        · have hcap : hasCapitalization "" = false := by decide
          have hpc : hasProperCapitalization "" = false := by decide
          have hac : isAcronym "" = false := by decide
          have hprod : isProductCode "" = false := by decide
          have hcaps : isAllCaps "" = false := by decide
          have hdec : decide ((1/5 : ℚ) ≤ min (0 : ℚ) 1) = false :=
            decide_eq_false (by norm_num)
          simp only [hfind, List.headD_cons, hcap, hpc, hac, hprod, hcaps,
            Bool.false_and, Bool.false_eq_true, if_false, Option.isSome_none,
            Bool.or_false, hdec, List.length_nil, lt_self_iff_false,
            List.map_nil]
          norm_num [emptyProperNouns]
        · exfalso
          have hp := List.find?_some hfind
          have hm := List.mem_of_find?_eq_some hfind
          simp only [Bool.and_eq_true, decide_eq_true_eq] at hp
          apply hwf hit hm hp.1
          have hall : query.data.all jsIsSpace = true :=
            (wsTokensAux_eq_nil query.data [] hts).2
          have hdq : (jsLower query).data = query.data :=
            all_space_map_lower query.data hall
          rw [hp.2]
          show wsTokens (jsLower query).data = []
          rw [hdq]
          exact hts
      · -- at least one word, hence at least two words by the hypothesis
        have hwords : jsTrimSplitWs query = (t :: rest).map (fun tt => (⟨tt⟩ : String)) := by
          simp [jsTrimSplitWs, hts]
        have hlen : (getQueryStats query).wordCount = (t :: rest).length := by
          simp [getQueryStats, jsWords, hts]
        rw [hwords, if_pos (by rw [List.length_map, ← hlen]; exact hwc)]
  · intro o query
    by_cases hq : query = ""
    · rw [hq]
      simp only [shouldAutoDisableRerank, if_pos rfl]
      constructor
      · intro h
        exact absurd h (by simp)
      · rintro ⟨h1, -⟩
        exact absurd h1 (by decide)
    · simp only [shouldAutoDisableRerank, if_neg hq, Bool.and_eq_true, decide_eq_true_eq]

/-- Witness for C9 at the two-word query "hello world" with the quiet
oracle. -/
theorem C9_proper_nouns_single_word_only_witness :
    detectProperNouns quietEnhancerOracle "hello world" = emptyProperNouns ∧
    (shouldAutoDisableRerank quietEnhancerOracle "hello world" = true ↔
      ((getQueryStats "hello world").wordCount = 1 ∧
        (detectProperNouns quietEnhancerOracle "hello world").hasProperNouns = true)) :=
  ⟨C9_proper_nouns_single_word_only.1 quietEnhancerOracle "hello world" (by decide)
      (by decide),
   C9_proper_nouns_single_word_only.2 quietEnhancerOracle "hello world"⟩

/-! ## C10 -/

/-- C10: the whitespace-only query "   " passes analyzeQuery's input
validation (a normal result is returned, not an error), yet its tokenization
yields zero words, and the unguarded divisions by the word count make
averageWordLength and uniqueWordRatio non-numeric (none, the embedded NaN)
instead of numbers in [0, 1]. -/
theorem C10_whitespace_query_nan (o : AnalyzerOracle) (context : AnalyzerContext) :
    (analyzeQuery defaultAnalyzerOptions o "   " context).map
      (fun d => (d.analysis.wordCount, d.analysis.avgWordLength, d.analysis.uniqueWordFrac)) =
      Except.ok (0, none, none) := by
  have hq : ("   " : String) ≠ "" := by decide
  have hw : jsWords (jsLower "   ") = [] := by decide
  simp only [analyzeQuery, if_neg hq, Except.map, performAnalysis, hw,
    List.length_nil, jsDivNat, List.map_nil, List.sum_nil]
  norm_num
